import Mathlib

/-!
# Readability (Go port): package-level constants and tables

A shallow embedding of `Readability.go`: the flag constants, the configuration
defaults, the tag tables, the pattern table `REGEXPSS` and the entity table
`HtmlEscapeMap`, together with the functions of the file.  Go strings are Lean
strings, Go slices and arrays are lists, and a Go map literal is the list of its
key/value pairs with a lookup that follows Go's comma-ok form.
-/

namespace Readability

/-! ## Constants -/

/-- Source line 10: `const FlagStripUnlikelys = 0x1`. -/
def FlagStripUnlikelys : Nat := 0x1

/-- Source line 11: `const FlagWeightClasses = 0x2`. -/
def FlagWeightClasses : Nat := 0x2

/-- Source line 12: `const FlagCleanConditionally = 0x4`. -/
def FlagCleanConditionally : Nat := 0x4

/-- Source line 15: `const ElementNode = 1`. -/
def ElementNode : Nat := 1

/-- Source line 16: `const TextNode = 3`. -/
def TextNode : Nat := 3

/-- Source line 19: `const DefaultMaxElemsToParse = 0`, documented as
"Max number of nodes supported by this parser. Default=0 (no limit)". -/
def DefaultMaxElemsToParse : Nat := 0

/-- Source line 23: `const DefaultNTopCandidates = 5`. -/
def DefaultNTopCandidates : Nat := 5

/-- Source line 29: `const DefaultCharThreshold = 500`. -/
def DefaultCharThreshold : Nat := 500

/-! ## The part of Go's `strings` package the file uses -/

/-- Go `strings.HasPrefix` on character lists. -/
def HasPrefix : List Char → List Char → Bool
  | _, [] => true
  | [], _ :: _ => false
  | c :: s, d :: p => c == d && HasPrefix s p

/-- Go `strings.Index`: the position of the first occurrence of `sep` in `s`,
`none` standing for Go's `-1`. -/
def Index : List Char → List Char → Option Nat
  | [], sep => if sep.isEmpty then some 0 else none
  | c :: s, sep =>
    if HasPrefix (c :: s) sep then some 0
    else (Index s sep).map (· + 1)

/-- Go `strings.Count` for a non-empty `sep`: the number of non-overlapping
occurrences, counted from the left.  The fuel bounds the number of searches and
is the length of `s` plus one at the call site. -/
def countLoop : Nat → List Char → List Char → Nat
  | 0, _, _ => 0
  | fuel + 1, s, sep =>
    match Index s sep with
    | none => 0
    | some m => 1 + countLoop fuel (s.drop (m + sep.length)) sep

/-- Go `strings.Count`; for the empty separator Go answers the number of
characters plus one. -/
def Count (s sep : List Char) : Nat :=
  if sep.isEmpty then s.length + 1 else countLoop (s.length + 1) s sep

/-- The loop of Go's `genSplit` with `sepSave = 0`: while fewer than `n` pieces
were cut and `sep` still occurs, cut the piece before it; the rest of the string
is the last piece. -/
def splitLoop : Nat → List Char → List Char → List (List Char)
  | 0, s, _ => [s]
  | n + 1, s, sep =>
    match Index s sep with
    | none => [s]
    | some m => s.take m :: splitLoop n (s.drop (m + sep.length)) sep

/-- Go `genSplit(s, sep, 0, -1)`: an empty separator explodes the string into its
characters, otherwise `n = Count(s, sep) + 1` pieces are cut (the loop runs
`n - 1` times). -/
def genSplit (s sep : List Char) : List (List Char) :=
  if sep.isEmpty then s.map (fun c => [c])
  else splitLoop (Count s sep) s sep

/-- Go `strings.Split(s, sep)`. -/
def Split (s sep : String) : List String :=
  (genSplit s.data sep.data).map String.mk

/-- Go `strings.ToUpper` on the ASCII range, which is all the tables hold. -/
def ToUpper (s : String) : String :=
  String.mk (s.data.map Char.toUpper)

/-! ## Tag tables -/

/-- Source line 26:
`var DefaultTagsToScore = strings.Split("section,h2,h3,h4,h5,h6,p,td,pre", ",")`. -/
def DefaultTagsToScore : List String :=
  Split "section,h2,h3,h4,h5,h6,p,td,pre" ","

/-- Source line 59: `var UnlikelyRoles = [7]string{...}`. -/
def UnlikelyRoles : List String :=
  ["menu", "menubar", "complementary", "navigation", "alert", "alertdialog", "dialog"]

/-- Source line 61: `var DivToPElems = [9]string{...}`. -/
def DivToPElems : List String :=
  ["BLOCKQUOTE", "DL", "DIV", "IMG", "OL", "P", "PRE", "TABLE", "UL"]

/-- Source line 63: `var AlterToDivExceptions = []string{...}`. -/
def AlterToDivExceptions : List String :=
  ["DIV", "ARTICLE", "SECTION", "P"]

/-- Source line 65: `var PresentationalAttributes = []string{...}`. -/
def PresentationalAttributes : List String :=
  ["align", "background", "bgcolor", "border", "cellpadding", "cellspacing", "frame",
   "hspace", "rules", "style", "valign", "vspace"]

/-- Source line 67: `var DeprecatedSizeAttributeElems = []string{...}`. -/
def DeprecatedSizeAttributeElems : List String :=
  ["TABLE", "TH", "TD", "HR", "PRE"]

/-- Source line 71: `var PhrasingElems = []string{...}`. -/
def PhrasingElems : List String :=
  ["CANVAS", "IFRAME", "SVG", "VIDEO", "ABBR", "AUDIO", "B", "BDO", "BR", "BUTTON", "CITE",
   "CODE", "DATA", "DATALIST", "DFN", "EM", "EMBED", "I", "IMG", "INPUT", "KBD", "LABEL",
   "MARK", "MATH", "METER", "NOSCRIPT", "OBJECT", "OUTPUT", "PROGRESS", "Q", "RUBY", "SAMP",
   "SCRIPT", "SELECT", "SMALL", "SPAN", "STRONG", "SUB", "SUP", "TEXTAREA", "TIME", "VAR",
   "WBR"]

/-- Source line 74: `var ClassesToPreserve = []string{"page"}`. -/
def ClassesToPreserve : List String := ["page"]

/-! ## Maps -/

/-- Go's `v, ok := m[k]` on a map literal given as its key/value pairs: `none` is
`ok == false`. -/
def mapLookup (m : List (String × String)) (k : String) : Option String :=
  match m with
  | [] => none
  | (k', v) :: rest => if k' = k then some v else mapLookup rest k

/-- Go's `m[k]`: the value, or the zero value `""` when the key is absent. -/
def mapIndex (m : List (String × String)) (k : String) : String :=
  (mapLookup m k).getD ""

/-- Source lines 37-57: `var REGEXPSS = map[string]string{...}`.  Every value is a
raw (backquoted) string literal, so its text is taken character for character; the
first literal opens on line 37 and closes at the end of line 38. -/
def REGEXPSS : List (String × String) :=
  [("unlikelyCandidates",
    "/-ad-|ai2html|banner|breadcrumbs|combx|comment|community|cover-wrap|disqus|extra|footer|gdpr|header|legends|menu|related|remark|replies|rss|shoutbox|sidebar|skyscraper|social|sponsor|supplemental|ad-break|agegate|pagination|pager|popup|yom-remote/i,\nokMaybeItsACandidate: /and|article|body|column|content|main|shadow/i,"),
   ("positive",
    "/article|body|content|entry|hentry|h-entry|main|page|pagination|post|text|blog|story/i,"),
   ("negative",
    "/-ad-|hidden|^hid$| hid$| hid |^hid |banner|combx|comment|com-|contact|foot|footer|footnote|gdpr|masthead|media|meta|outbrain|promo|related|scroll|share|shoutbox|sidebar|skyscraper|sponsor|shopping|tags|tool|widget/i,"),
   ("extraneous",
    "/print|archive|comment|discuss|e[\\-]?mail|share|reply|all|login|sign|single|utility/i,"),
   ("byline",
    "/byline|author|dateline|writtenby|p-author/i,"),
   ("replaceFonts",
    "/<(\\/?)font[^>]*>/gi,"),
   ("normalize",
    "/\\s\x7b2,\x7d/g,"),
   ("videos",
    " /\\/\\/(www\\.)?((dailymotion|youtube|youtube-nocookie|player\\.vimeo|v\\.qq)\\.com|(archive|upload\\.wikimedia)\\.org|player\\.twitch\\.tv)/i,"),
   ("shareElements",
    "/(\\b|_)(share|sharedaddy)(\\b|_)/i,"),
   ("nextLink",
    " /(next|weiter|continue|>([^\\|]|$)|»([^\\|]|$))/i"),
   ("prevLink",
    "/(prev|earl|old|new|<|«)/i"),
   ("tokenize",
    "/\\W+/g"),
   ("whitespace",
    "/^\\s*$/"),
   ("hasContent",
    "/\\S$/"),
   ("hashUrl",
    "/^#.+/"),
   ("srcsetUrl",
    "/(\\S+)(\\s+[\\d.]+[xw])?(\\s*(?:,|$))/g"),
   ("b64DataUrl",
    "/^data:\\s*([^\\s;,]+)\\s*;\\s*base64\\s*,/i"),
   ("jsonLdArticleTypes",
    "/^Article|AdvertiserContentArticle|NewsArticle|AnalysisNewsArticle|AskPublicNewsArticle|BackgroundNewsArticle|OpinionNewsArticle|ReportageNewsArticle|ReviewNewsArticle|Report|SatiricalArticle|ScholarlyArticle|MedicalScholarlyArticle|SocialMediaPosting|BlogPosting|LiveBlogPosting|DiscussionForumPosting|TechArticle|APIReference$/")]

/-- Source line 77: `var HtmlEscapeMap = map[string]string{...}`; `string('"')`
is the one-character string holding the double quote. -/
def HtmlEscapeMap : List (String × String) :=
  [("lt", "<"), ("gt", ">"), ("amp", "&"), ("quot", String.singleton '"'), ("apos", "'")]

/-! ## Patterns read by Go's `regexp`

The patterns the claims look at use only ordinary characters and `|`.  In Go's
syntax `|` has the lowest precedence, every other character of such a pattern
stands for itself (the slash, the comma and the hyphen included), and a match may
start anywhere in the subject. -/

/-- Characters with a meaning of their own in Go's regular-expression syntax. -/
def isMetaChar (c : Char) : Bool :=
  "\\.+*?()[]\x7b\x7d^$|".data.contains c

/-- The alternatives of a pattern built from ordinary characters and `|` only;
`none` for a pattern outside that fragment. -/
def parseAlternatives (pattern : List Char) : Option (List (List Char)) :=
  if pattern.any (fun c => isMetaChar c && c != '|') then none
  else some (genSplit pattern ['|'])

/-- Go `regexp.MatchString(pattern, s)` on the fragment above: some alternative
occurs in `s`. -/
def MatchString (pattern s : String) : Option Bool :=
  (parseAlternatives pattern.data).map
    (fun alts => alts.any (fun a => (Index s.data a).isSome))

/-! ## Functions

Every function of the file is declared as `func name() { }`: no parameter, no
result value, an empty body.  A call takes the empty argument list and ends either
by returning or by panicking; with an empty body it returns. -/

/-- How a call of a Go function without result values ends. -/
inductive Outcome where
  | returned
  | panicked (message : String)
  deriving DecidableEq, Repr

/-- Source lines 79-81: `func parse() { }`. -/
def parse (_ : Unit) : Outcome := Outcome.returned

/-- Source lines 156-157: `func _initializeNode() { }`. -/
def _initializeNode (_ : Unit) : Outcome := Outcome.returned

/-- Source lines 205-206: `func _isValidByline() { }`. -/
def _isValidByline (_ : Unit) : Outcome := Outcome.returned

/-- Source lines 214-215: `func _unescapeHtmlEntities() { }`. -/
def _unescapeHtmlEntities (_ : Unit) : Outcome := Outcome.returned

/-- Source lines 347-349: `func _getClassWeight() { }`. -/
def _getClassWeight (_ : Unit) : Outcome := Outcome.returned

/-- Source lines 436-437: `func _flagIsActive() { }`. -/
def _flagIsActive (_ : Unit) : Outcome := Outcome.returned

/-- Source lines 439-440: `func _removeFlag() { }`. -/
def _removeFlag (_ : Unit) : Outcome := Outcome.returned

/-! ## Stated behaviour, for comparison with the functions

What the specification and the docstrings say two of the functions compute.
Neither definition has a counterpart in the source; each is only set against the
function of the source it speaks about. -/

/-- The base score by tag that section 4.2 of the specification states for
`initializeNode`: 5 for DIV, 3 for PRE, BLOCKQUOTE and TD, -3 for FORM, OL, UL, DL,
DD, DT, LI and ADDRESS, -5 for H1 to H6 and TH, 0 otherwise. -/
def baseScoreStated (tagName : String) : Int :=
  if tagName = "DIV" then 5
  else if tagName ∈ ["PRE", "BLOCKQUOTE", "TD"] then 3
  else if tagName ∈ ["FORM", "OL", "UL", "DL", "DD", "DT", "LI", "ADDRESS"] then -3
  else if tagName ∈ ["H1", "H2", "H3", "H4", "H5", "H6", "TH"] then -5
  else 0

/-- The answer the docstring of `_isValidByline` (source lines 197-204) documents:
true when the candidate is shorter than 100 characters. -/
def isValidBylineDocumented (possibleByline : String) : Bool :=
  decide (possibleByline.length < 100)

/-! ## Flag sets -/

/-- The three flag constants of source lines 10-12, by name. -/
inductive Flag where
  | StripUnlikelys
  | WeightClasses
  | CleanConditionally
  deriving DecidableEq, Repr, Fintype

/-- The value the source gives each flag constant. -/
def Flag.value : Flag → Nat
  | Flag.StripUnlikelys => FlagStripUnlikelys
  | Flag.WeightClasses => FlagWeightClasses
  | Flag.CleanConditionally => FlagCleanConditionally

/-- The bitwise OR of the values of the flags that belong to `s`. -/
def flagsOr (s : Finset Flag) : Nat :=
  ([Flag.StripUnlikelys, Flag.WeightClasses, Flag.CleanConditionally].filter (· ∈ s)).foldl
    (fun acc f => acc ||| f.value) 0

end Readability

open Readability

/-! ## Results -/

/-- A successful lookup finds a pair of the map. -/
theorem mapLookup_mem (m : List (String × String)) (k v : String)
    (h : mapLookup m k = some v) : (k, v) ∈ m := by
  induction m with
  | nil => simp [mapLookup] at h
  | cons p rest ih =>
    obtain ⟨k', v'⟩ := p
    simp only [mapLookup] at h
    split_ifs at h with hk
    · cases h
      subst hk
      exact List.mem_cons_self _ _
    · exact List.mem_cons_of_mem _ (ih h)

/-- C1 (as stated, refuted): however a score is read off the outcome of a call of
`_initializeNode`, it is not the stated base score for every tag: the call takes no
element, so its outcome is the same for DIV (stated 5) and for PRE (stated 3). -/
theorem initializeNode_does_not_score_by_tag :
    ¬ ∃ read : Outcome → Int, ∀ tagName : String,
        read (_initializeNode ()) = baseScoreStated tagName := by
  rintro ⟨read, h⟩
  have hDiv := h "DIV"
  have hPre := h "PRE"
  rw [hDiv] at hPre
  exact absurd hPre (by decide)

/-- C1 (amended): a call of `_initializeNode` returns normally and never panics; the
function takes no element and has no result, so it gives no element a score. -/
theorem initializeNode_returns :
    _initializeNode () = Outcome.returned ∧
    ∀ message : String, _initializeNode () ≠ Outcome.panicked message := by
  refine ⟨rfl, ?_⟩
  intro message h
  cases h

/-- C2 (as stated, refuted): it is not the case that `parse` fails whenever the
element count exceeds a maximum above 0: with 2 elements and a maximum of 1 the
call returns. -/
theorem parse_does_not_guard_element_count :
    ¬ ∀ elementCount maxElems : Nat, 0 < maxElems → maxElems < elementCount →
        ∃ message : String, parse () = Outcome.panicked message := by
  intro h
  obtain ⟨message, hm⟩ := h 2 1 (by decide) (by decide)
  cases hm

/-- C2 (amended): a call of `parse` returns normally and fails with no error; the
function takes neither a document nor a maximum, so this holds whatever the element
count and whatever the maximum, the default `DefaultMaxElemsToParse = 0` included. -/
theorem parse_never_fails :
    parse () = Outcome.returned ∧
    ∀ message : String, parse () ≠ Outcome.panicked message := by
  refine ⟨rfl, ?_⟩
  intro message h
  cases h

/-- C3: the docstring of `_isValidByline` documents the answer true for the
8-character candidate "Jane Doe" and false for a candidate of 100 characters, yet
a call of the function, which takes no string and has no result, just returns:
however a Boolean is read off its outcome, it is not the documented answer for
every candidate. -/
theorem isValidByline_contradicts_docstring :
    isValidBylineDocumented "Jane Doe" = true ∧
    isValidBylineDocumented (String.mk (List.replicate 100 'a')) = false ∧
    _isValidByline () = Outcome.returned ∧
    ¬ ∃ read : Outcome → Bool, ∀ possibleByline : String,
        read (_isValidByline ()) = isValidBylineDocumented possibleByline := by
  refine ⟨by decide, by decide, rfl, ?_⟩
  rintro ⟨read, h⟩
  have hShort := h "Jane Doe"
  have hLong := h (String.mk (List.replicate 100 'a'))
  rw [hShort] at hLong
  exact absurd hLong (by decide)

/-- C4: the configuration defaults are 5 top candidates, a character threshold of
500 and a maximum of 0 elements to parse; and the maximum 0 limits nothing: `parse`,
the function the maximum is documented for, returns normally and turns no document
away. -/
theorem defaults_values :
    DefaultNTopCandidates = 5 ∧ DefaultCharThreshold = 500 ∧ DefaultMaxElemsToParse = 0 ∧
    parse () = Outcome.returned ∧
    ∀ message : String, parse () ≠ Outcome.panicked message := by
  refine ⟨rfl, rfl, rfl, rfl, ?_⟩
  intro message h
  cases h

/-- C5: `DefaultTagsToScore`, the split of "section,h2,h3,h4,h5,h6,p,td,pre" on
commas, is the nine entries section, h2, h3, h4, h5, h6, p, td, pre in that order,
none of them empty and none repeated. -/
theorem defaultTagsToScore_split :
    DefaultTagsToScore = ["section", "h2", "h3", "h4", "h5", "h6", "p", "td", "pre"] ∧
    DefaultTagsToScore.length = 9 ∧
    "" ∉ DefaultTagsToScore ∧
    DefaultTagsToScore.Nodup := by
  decide

/-- C6: read as a Go regular expression, the "positive" entry of `REGEXPSS` matches
the class strings body, content and main, but it matches neither article nor story:
the slash that opens the entry belongs to its first alternative and the trailing
"/i," to its last one. -/
theorem positive_pattern_misses_article_and_story :
    MatchString (mapIndex REGEXPSS "positive") "body" = some true ∧
    MatchString (mapIndex REGEXPSS "positive") "content" = some true ∧
    MatchString (mapIndex REGEXPSS "positive") "main" = some true ∧
    MatchString (mapIndex REGEXPSS "positive") "article" = some false ∧
    MatchString (mapIndex REGEXPSS "positive") "story" = some false ∧
    (parseAlternatives (mapIndex REGEXPSS "positive").data).map List.head? =
      some (some "/article".data) ∧
    (parseAlternatives (mapIndex REGEXPSS "positive").data).map List.getLast? =
      some (some "story/i,".data) := by
  decide

set_option maxRecDepth 100000 in
/-- C7: `REGEXPSS` has no key okMaybeItsACandidate, and its entry under
unlikelyCandidates is the unlikely-candidate pattern followed, after a line break,
by the text of the override pattern with its keywords. -/
theorem okMaybeItsACandidate_is_not_a_key :
    mapLookup REGEXPSS "okMaybeItsACandidate" = none ∧
    "okMaybeItsACandidate" ∉ REGEXPSS.map Prod.fst ∧
    mapLookup REGEXPSS "unlikelyCandidates" =
      some ("/-ad-|ai2html|banner|breadcrumbs|combx|comment|community|cover-wrap|disqus|extra|footer|gdpr|header|legends|menu|related|remark|replies|rss|shoutbox|sidebar|skyscraper|social|sponsor|supplemental|ad-break|agegate|pagination|pager|popup|yom-remote/i,"
        ++ "\n"
        ++ "okMaybeItsACandidate: /and|article|body|column|content|main|shadow/i,") := by
  decide

/-- C8 (as stated, refuted): however a string is read off the outcome of a call of
`_unescapeHtmlEntities`, it is not, for each of the names of `HtmlEscapeMap`, the
character that name is mapped to: the call takes no string, so its outcome is the
same for lt and for gt. -/
theorem unescapeHtmlEntities_converts_no_entity :
    _unescapeHtmlEntities () = Outcome.returned ∧
    ¬ ∃ read : Outcome → String, ∀ name ∈ HtmlEscapeMap.map Prod.fst,
        mapLookup HtmlEscapeMap name = some (read (_unescapeHtmlEntities ())) := by
  refine ⟨rfl, ?_⟩
  rintro ⟨read, h⟩
  have hLt := h "lt" (by decide)
  have hGt := h "gt" (by decide)
  rw [← hLt] at hGt
  exact absurd hGt (by decide)

/-- C8 (amended): `HtmlEscapeMap` holds exactly the five entity names lt, gt, amp, quot and
apos, mapped to the one-character strings for less-than, greater-than, ampersand,
double quote and apostrophe, and no two names are mapped to the same character. -/
theorem htmlEscapeMap_five_entities_injective :
    HtmlEscapeMap.map Prod.fst = ["lt", "gt", "amp", "quot", "apos"] ∧
    mapLookup HtmlEscapeMap "lt" = some "<" ∧
    mapLookup HtmlEscapeMap "gt" = some ">" ∧
    mapLookup HtmlEscapeMap "amp" = some "&" ∧
    mapLookup HtmlEscapeMap "quot" = some "\"" ∧
    mapLookup HtmlEscapeMap "apos" = some "'" ∧
    (HtmlEscapeMap.map (fun entry => entry.2.length)) = [1, 1, 1, 1, 1] ∧
    (∀ name : String, (mapLookup HtmlEscapeMap name).isSome = true ↔
      name ∈ ["lt", "gt", "amp", "quot", "apos"]) ∧
    (∀ name₁ name₂ c : String, mapLookup HtmlEscapeMap name₁ = some c →
      mapLookup HtmlEscapeMap name₂ = some c → name₁ = name₂) := by
  refine ⟨by decide, by decide, by decide, by decide, by decide, by decide, by decide,
    ?_, ?_⟩
  · intro name
    simp only [HtmlEscapeMap, mapLookup]
    constructor
    · intro h
      split_ifs at h <;> simp_all
    · intro h
      simp only [List.mem_cons, List.mem_singleton, List.not_mem_nil, or_false] at h
      rcases h with h | h | h | h | h <;> subst h <;> decide
  · intro name₁ name₂ c h₁ h₂
    have m₁ := mapLookup_mem _ _ _ h₁
    have m₂ := mapLookup_mem _ _ _ h₂
    simp only [HtmlEscapeMap, List.mem_cons, List.mem_singleton, List.not_mem_nil,
      or_false, Prod.mk.injEq] at m₁ m₂
    rcases m₁ with ⟨rfl, rfl⟩ | ⟨rfl, rfl⟩ | ⟨rfl, rfl⟩ | ⟨rfl, rfl⟩ | ⟨rfl, rfl⟩ <;>
      rcases m₂ with ⟨rfl, e⟩ | ⟨rfl, e⟩ | ⟨rfl, e⟩ | ⟨rfl, e⟩ | ⟨rfl, e⟩ <;>
      first
        | rfl
        | exact absurd e (by decide)

/-- C9: the three flag values are the single bits 1, 2 and 4, any two of them have
no bit in common, and two sets of flags have the same bitwise OR of their values
exactly when they are the same set. -/
theorem flags_form_a_bit_set :
    (FlagStripUnlikelys = 2 ^ 0 ∧ FlagWeightClasses = 2 ^ 1 ∧
      FlagCleanConditionally = 2 ^ 2) ∧
    (FlagStripUnlikelys &&& FlagWeightClasses = 0 ∧
      FlagStripUnlikelys &&& FlagCleanConditionally = 0 ∧
      FlagWeightClasses &&& FlagCleanConditionally = 0) ∧
    (∀ s t : Finset Flag, flagsOr s = flagsOr t ↔ s = t) := by
  refine ⟨by decide, by decide, ?_⟩
  decide

/-- C10: every entry of `DivToPElems`, `AlterToDivExceptions`,
`DeprecatedSizeAttributeElems` and `PhrasingElems` equals its own upper-casing,
whereas no entry of `DefaultTagsToScore` does: its nine entries are in lower case. -/
theorem defaultTagsToScore_not_upper_case :
    (∀ t ∈ DivToPElems, ToUpper t = t) ∧
    (∀ t ∈ AlterToDivExceptions, ToUpper t = t) ∧
    (∀ t ∈ DeprecatedSizeAttributeElems, ToUpper t = t) ∧
    (∀ t ∈ PhrasingElems, ToUpper t = t) ∧
    (∀ t ∈ DefaultTagsToScore, ToUpper t ≠ t) ∧
    DefaultTagsToScore.map ToUpper =
      ["SECTION", "H2", "H3", "H4", "H5", "H6", "P", "TD", "PRE"] := by
  decide
